import Mathlib

/-!
Verification of the Helm-chart parameter-set solver (`test/tools/solver.py`).

The development shallowly embeds the minimization / search engine of the
solver: the ordered error classifier `categorize_error`, the oracle-call
wrapper `_test_chart_with_params_task`, the recursive bisection minimizer
(`_find_minimal_recursive` and `_minimize_parameter_set_task`), the targeted
attempt loop of `_process_chart_binary_search_task`, the strategy dispatch
and worker-boundary exception handler of `_process_chart_task`, and the
checkpoint save of `ChartSolver._save_checkpoint`.

Python dicts are embedded as insertion-ordered association lists with
well-formedness (`WF`) meaning the keys are pairwise distinct; the external
validator subprocess is embedded as a function from the parameter set under
test to an abstract process outcome (exit with a code and stderr text,
timeout, or a raised launch exception), which is exactly the determinism
assumption stated by the spec.
-/

set_option autoImplicit false

namespace Solver

/-- A parameter value.  The solver only ever copies values between dicts and
serializes them onto the `--set` command line, so the stringified form is all
the logic depends on. -/
abbrev Value := String

/-- A Python dict of parameters, embedded as an insertion-ordered association
list. -/
abbrev ParamSet := List (String × Value)

/-- The keys of a dict, in insertion order (`dict.keys()`). -/
def keys (d : ParamSet) : List String := d.map Prod.fst

/-- Well-formedness of the dict embedding: keys are pairwise distinct. -/
def WF (d : ParamSet) : Prop := (keys d).Nodup

/-- Python dict comprehension `{k: d[k] for k in ks}` (used for the half
dicts and singleton test sets; every `k` comes from `d.keys()` there). -/
def subDict (d : ParamSet) (ks : List String) : ParamSet :=
  ks.filterMap (fun k => (List.lookup k d).map (fun v => (k, v)))

/-- Python dict assignment `d[k] = v`: update the first binding of `k` in
place, else append the new binding. -/
def dictInsert : ParamSet → String → Value → ParamSet
  | [], k, v => [(k, v)]
  | kv :: rest, k, v =>
      if kv.1 = k then (k, v) :: rest else kv :: dictInsert rest k v

/-- Python dict merge `{**d1, **d2}`. -/
def dictMerge (d1 d2 : ParamSet) : ParamSet :=
  d2.foldl (fun acc kv => dictInsert acc kv.1 kv.2) d1

/-- Python `pat in s` on strings: contiguous substring containment. -/
def strContains (s pat : String) : Bool :=
  decide (pat.toList <:+: s.toList)

/-- Python `str.lower()` (the same function as `String.toLower`, written over
the character list so that it evaluates by kernel reduction). -/
def strToLower (s : String) : String :=
  String.mk (s.toList.map Char.toLower)

/-! ### Error classifier (`categorize_error`, solver.py lines 67-234)

The ordered pattern lists are transcribed verbatim from the chain of
`any(pattern in error_msg_lower for pattern in [...])` checks. -/

def kube_version_patterns : List String :=
  ["version constraint", "kube version", "kubernetes version",
   "not compatible with", "incompatible version"]

def required_value_patterns : List String :=
  ["required value", "required field", "value is required", "cannot be empty",
   "must be set", "is required", "missing required field"]

def yaml_patterns : List String :=
  ["failed to parse", "yaml:", "json:", "invalid yaml syntax",
   "unable to parse yaml"]

def schema_patterns : List String :=
  ["schema(s)", "don't meet the specifications", "validation failed",
   "schema validation", "specifications of the schema", "invalid schema"]

def coalesce_patterns : List String :=
  ["wrong type for value", "coalesce.go", "destination for", "expected type",
   "cannot merge"]

def registry_patterns : List String :=
  ["image registry", "cannot pull image", "registry", "repository",
   "docker.io", "image pull"]

def storage_patterns : List String :=
  ["persistence", "storage", "volume", "pvc", "storageclass"]

def auth_patterns : List String :=
  ["auth", "authentication", "credentials", "password", "secret",
   "access denied"]

def crd_patterns : List String :=
  ["crd", "custom resource", "installcrds", "apiversion",
   "resource definition"]

def template_patterns : List String :=
  ["template", "rendering", "render", "execution error", "template error",
   "template failed"]

def timeout_patterns : List String :=
  ["timeout", "timed out", "deadline exceeded"]

def config_patterns : List String :=
  ["configuration", "config", "not valid", "invalid configuration"]

/-- `categorize_error` (solver.py lines 67-234): first matching rule wins;
empty input and the final generic `error`/`failed` check both yield
`UNKNOWN_ERROR`. -/
def categorize_error (error_msg : String) : String :=
  if error_msg = "" then "UNKNOWN_ERROR"
  else
    let error_msg_lower := strToLower error_msg
    if kube_version_patterns.any (fun p => strContains error_msg_lower p) then
      "KUBE_VERSION_ERROR"
    else if required_value_patterns.any (fun p => strContains error_msg_lower p) then
      "REQUIRED_VALUE_ERROR"
    else if yaml_patterns.any (fun p => strContains error_msg_lower p) then
      "YAML_ERROR"
    else if schema_patterns.any (fun p => strContains error_msg_lower p) then
      "SCHEMA_ERROR"
    else if coalesce_patterns.any (fun p => strContains error_msg_lower p) then
      "COALESCE_ERROR"
    else if registry_patterns.any (fun p => strContains error_msg_lower p) then
      "REGISTRY_ERROR"
    else if storage_patterns.any (fun p => strContains error_msg_lower p) then
      "STORAGE_ERROR"
    else if auth_patterns.any (fun p => strContains error_msg_lower p) then
      "AUTH_ERROR"
    else if crd_patterns.any (fun p => strContains error_msg_lower p) then
      "CRD_ERROR"
    else if template_patterns.any (fun p => strContains error_msg_lower p) then
      "TEMPLATE_ERROR"
    else if strContains error_msg_lower "library charts are not installable" then
      "LIBRARY_ERROR"
    else if strContains error_msg_lower "chart is deprecated" then
      "DEPRECATED_ERROR"
    else if timeout_patterns.any (fun p => strContains error_msg_lower p) then
      "TIMEOUT_ERROR"
    else if config_patterns.any (fun p => strContains error_msg_lower p) then
      "CONFIG_ERROR"
    else if strContains error_msg_lower "error" || strContains error_msg_lower "failed" then
      "UNKNOWN_ERROR"
    else
      "UNKNOWN_ERROR"

/-! ### Oracle client (`_test_chart_with_params_task`, solver.py lines 291-357) -/

/-- The outcome of the external validator subprocess spawned by
`subprocess.run` for one parameter set: a normal exit with a return code and
captured stderr, expiry of the 60-second timeout, or a raised launch
exception with its message. -/
inductive ProcOutcome where
  | exits (returncode : Nat) (stderr : String)
  | timesOut
  | raises (msg : String)

/-- The fields of `TestResult` that the solver logic reads (`status`,
`category`, `details`); `chart_name`, `chart_path`, `classification` and the
two duration fields are constants never consulted by the search engine. -/
structure TestResult where
  status : String
  category : String
  details : String
deriving DecidableEq

/-- `_test_chart_with_params_task` (solver.py lines 291-357): run the
validator on one parameter set and classify the outcome.  `run` is the
subprocess behaviour, a function of the parameter set (the spec's
deterministic-oracle assumption). -/
def test_chart_with_params_task (run : ParamSet → ProcOutcome)
    (params : ParamSet) : TestResult :=
  match run params with
  | ProcOutcome.exits 0 _ =>
      { status := "SUCCESS", category := "SUCCESS",
        details := "Validation successful" }
  | ProcOutcome.exits (_ + 1) stderr =>
      { status := "VALIDATE_ERROR", category := categorize_error stderr,
        details := "Error: " ++ stderr }
  | ProcOutcome.timesOut =>
      { status := "TIMEOUT_ERROR", category := "TIMEOUT_ERROR",
        details := "Command timed out after 60 seconds" }
  | ProcOutcome.raises e =>
      { status := "UNKNOWN_ERROR", category := "UNKNOWN_ERROR",
        details := "Error executing command: " ++ e }

/-! ### Bisection minimizer (`_find_minimal_recursive`, solver.py lines
360-434, and `_minimize_parameter_set_task`, lines 437-478) -/

/-- `{k: candidate_params[k] for k in first_half_names}` with
`first_half_names = list(candidate_params.keys())[: len(candidate_params) // 2]`
(solver.py lines 377, 395). -/
def first_half_dict (d : ParamSet) : ParamSet :=
  subDict d ((keys d).take (d.length / 2))

/-- `{k: candidate_params[k] for k in second_half_names}` with
`second_half_names = list(candidate_params.keys())[len(candidate_params) // 2 :]`
(solver.py lines 378-379). -/
def second_half_dict (d : ParamSet) : ParamSet :=
  subDict d ((keys d).drop (d.length / 2))

theorem length_subDict_le (d : ParamSet) (ks : List String) :
    (subDict d ks).length ≤ ks.length :=
  List.length_filterMap_le _ _

theorem length_keys (d : ParamSet) : (keys d).length = d.length :=
  List.length_map _ _

theorem first_half_dict_length_lt (d : ParamSet) (h : 2 ≤ d.length) :
    (first_half_dict d).length < d.length := by
  have h1 : (first_half_dict d).length ≤ ((keys d).take (d.length / 2)).length :=
    length_subDict_le d _
  have h2 : ((keys d).take (d.length / 2)).length = min (d.length / 2) (keys d).length :=
    List.length_take _ _
  rw [length_keys] at h2
  omega

theorem second_half_dict_length_lt (d : ParamSet) (h : 2 ≤ d.length) :
    (second_half_dict d).length < d.length := by
  have h1 : (second_half_dict d).length ≤ ((keys d).drop (d.length / 2)).length :=
    length_subDict_le d _
  have h2 : ((keys d).drop (d.length / 2)).length = (keys d).length - d.length / 2 :=
    List.length_drop _ _
  rw [length_keys] at h2
  omega

/-- `_find_minimal_recursive` (solver.py lines 360-434): recursive bisection.
Tests the second half (the dict without its first half of keys); if it
succeeds, recurses on it; otherwise tests the first half and recurses on it
if it succeeds; otherwise minimizes both halves, merges them
(`{**minimal_first, **minimal_second}`) and re-verifies the merge, falling
back to the pre-split candidate set when the verification fails. -/
def find_minimal_recursive (run : ParamSet → ProcOutcome)
    (candidate_params current_best_params : ParamSet) : ParamSet :=
  if _h0 : candidate_params = [] then []
  else if _h1 : candidate_params.length = 1 then
    if (test_chart_with_params_task run candidate_params).status = "SUCCESS" then
      candidate_params
    else current_best_params
  else if (test_chart_with_params_task run
      (second_half_dict candidate_params)).status = "SUCCESS" then
    find_minimal_recursive run (second_half_dict candidate_params)
      current_best_params
  else if (test_chart_with_params_task run
      (first_half_dict candidate_params)).status = "SUCCESS" then
    find_minimal_recursive run (first_half_dict candidate_params)
      current_best_params
  else if (test_chart_with_params_task run
      (dictMerge
        (find_minimal_recursive run (first_half_dict candidate_params)
          current_best_params)
        (find_minimal_recursive run (second_half_dict candidate_params)
          current_best_params))).status = "SUCCESS" then
    dictMerge
      (find_minimal_recursive run (first_half_dict candidate_params)
        current_best_params)
      (find_minimal_recursive run (second_half_dict candidate_params)
        current_best_params)
  else candidate_params
termination_by candidate_params.length
decreasing_by
  all_goals
    have h0' : candidate_params.length ≠ 0 := fun hlen => _h0 (List.length_eq_zero.mp hlen)
    first
      | exact second_half_dict_length_lt candidate_params (by omega)
      | exact first_half_dict_length_lt candidate_params (by omega)

/-- `_find_minimal_recursive` instrumented with the list of parameter sets it
passes to `_test_chart_with_params_task`, in call order, so that the number
and order of oracle calls can be stated.  The first component equals
`find_minimal_recursive` (theorem `find_minimal_recursive_calls_fst`). -/
def find_minimal_recursive_calls (run : ParamSet → ProcOutcome)
    (candidate_params current_best_params : ParamSet) : ParamSet × List ParamSet :=
  if _h0 : candidate_params = [] then ([], [])
  else if _h1 : candidate_params.length = 1 then
    ((if (test_chart_with_params_task run candidate_params).status = "SUCCESS" then
        candidate_params
      else current_best_params), [candidate_params])
  else if (test_chart_with_params_task run
      (second_half_dict candidate_params)).status = "SUCCESS" then
    ((find_minimal_recursive_calls run (second_half_dict candidate_params)
        current_best_params).1,
     second_half_dict candidate_params ::
       (find_minimal_recursive_calls run (second_half_dict candidate_params)
         current_best_params).2)
  else if (test_chart_with_params_task run
      (first_half_dict candidate_params)).status = "SUCCESS" then
    ((find_minimal_recursive_calls run (first_half_dict candidate_params)
        current_best_params).1,
     second_half_dict candidate_params :: first_half_dict candidate_params ::
       (find_minimal_recursive_calls run (first_half_dict candidate_params)
         current_best_params).2)
  else
    ((if (test_chart_with_params_task run
          (dictMerge
            (find_minimal_recursive_calls run (first_half_dict candidate_params)
              current_best_params).1
            (find_minimal_recursive_calls run (second_half_dict candidate_params)
              current_best_params).1)).status = "SUCCESS" then
        dictMerge
          (find_minimal_recursive_calls run (first_half_dict candidate_params)
            current_best_params).1
          (find_minimal_recursive_calls run (second_half_dict candidate_params)
            current_best_params).1
      else candidate_params),
     second_half_dict candidate_params :: first_half_dict candidate_params ::
       ((find_minimal_recursive_calls run (first_half_dict candidate_params)
           current_best_params).2 ++
        (find_minimal_recursive_calls run (second_half_dict candidate_params)
           current_best_params).2 ++
        [dictMerge
          (find_minimal_recursive_calls run (first_half_dict candidate_params)
            current_best_params).1
          (find_minimal_recursive_calls run (second_half_dict candidate_params)
            current_best_params).1]))
termination_by candidate_params.length
decreasing_by
  all_goals
    have h0' : candidate_params.length ≠ 0 := fun hlen => _h0 (List.length_eq_zero.mp hlen)
    first
      | exact second_half_dict_length_lt candidate_params (by omega)
      | exact first_half_dict_length_lt candidate_params (by omega)

/-- The `for param in param_names` loop of `_minimize_parameter_set_task`
(solver.py lines 458-465): test each parameter individually in sorted key
order and return the first sufficient singleton. -/
def first_success_singleton (run : ParamSet → ProcOutcome) (params : ParamSet) :
    List String → Option ParamSet
  | [] => none
  | param :: rest =>
    let test_params := subDict params [param]
    if (test_chart_with_params_task run test_params).status = "SUCCESS" then
      some test_params
    else first_success_singleton run params rest

/-- `_minimize_parameter_set_task` (solver.py lines 437-478): empty and
one/two-parameter sets are returned unchanged; otherwise each singleton is
tried in sorted key order, and failing that the recursive bisection runs with
`current_best_params` initialized to the full working set. -/
def minimize_parameter_set_task (run : ParamSet → ProcOutcome)
    (params : ParamSet) : ParamSet :=
  if params = [] then []
  else if params.length ≤ 2 then params
  else
    let param_names := List.insertionSort (· ≤ ·) (keys params)
    match first_success_singleton run params param_names with
    | some test_params => test_params
    | none =>
      let current_best_params := params
      find_minimal_recursive run params current_best_params

/-! ### Strategy controller pieces (`_process_chart_binary_search_task`,
solver.py lines 690-900, and `_process_chart_task`, lines 1047-1095) -/

/-- One logged oracle call, as appended to `chart_results["attempts"]`
(solver.py e.g. lines 869-877): `success = result.status == "SUCCESS"` and
`error_category = result.category if result.status != "SUCCESS" else None`. -/
structure Attempt where
  parameters : ParamSet
  success : Bool
  error_category : Option String
deriving DecidableEq

/-- The `for params in param_sets` loop of `_process_chart_binary_search_task`
(solver.py lines 859-891): walk the targeted combinations, breaking once
`len(attempts) >= max_attempts_per_chart`, appending an `Attempt` per oracle
call, recording each new non-empty error category, and on the first success
storing the minimized set.  Returns the final
`(attempts, error_categories, minimal_success_params)`. -/
def targeted_params_loop (run : ParamSet → ProcOutcome) (max_attempts : Nat) :
    List ParamSet → List Attempt → List String →
    List Attempt × List String × Option ParamSet
  | [], attempts, cats => (attempts, cats, none)
  | params :: rest, attempts, cats =>
    if max_attempts ≤ attempts.length then (attempts, cats, none)
    else
      let result := test_chart_with_params_task run params
      let attempts' := attempts ++
        [{ parameters := params,
           success := result.status == "SUCCESS",
           error_category :=
             if result.status ≠ "SUCCESS" then some result.category else none }]
      if result.status = "SUCCESS" then
        (attempts', cats, some (minimize_parameter_set_task run params))
      else
        let cats' :=
          if result.category ≠ "" ∧ result.category ∉ cats then
            cats ++ [result.category]
          else cats
        targeted_params_loop run max_attempts rest attempts' cats'

/-- `_extract_provider` (solver.py lines 481-507). -/
def providers_list : List String :=
  ["bitnami", "grafana", "elastic", "prometheus", "jetstack", "apache",
   "harbor", "kong", "istio", "linkerd", "argo", "cert-manager"]

/-- `_extract_provider` (solver.py lines 481-507): the part of the chart name
before a `/`, else the first known provider occurring in the lowercased
name, else `None`. -/
def extract_provider (chart_name : String) : Option String :=
  if strContains chart_name "/" then
    some ((chart_name.splitOn "/").headD "")
  else
    providers_list.find? (fun p => strContains (strToLower chart_name) p)

/-- The per-chart result record built by the strategy tasks and by the
exception handler of `_process_chart_task`; `error_details` is `none` when
the key is absent (it is only set by the handler, solver.py line 1094). -/
structure ChartResults where
  classification : String
  provider : Option String
  attempts : List Attempt
  minimal_success_params : Option ParamSet
  error_categories : List String
  error_details : Option String
deriving DecidableEq

/-- `_process_chart_task` (solver.py lines 1047-1095): dispatch on the
strategy tag — `"binary"`, `"exhaustive"`, anything else falls back to the
binary-search task — and convert any exception raised while processing the
chart into a `PROCESSING_ERROR` record instead of propagating it.  The two
strategy bodies are abstracted as their outcome: `Except.ok` a finalized
`(chart_name, results)` pair, or `Except.error` the text of the exception
the body raised. -/
def process_chart_task (chart_name : String) (strategy : String)
    (binary_task exhaustive_task : Except String (String × ChartResults)) :
    String × ChartResults :=
  let dispatched :=
    if strategy = "binary" then binary_task
    else if strategy = "exhaustive" then exhaustive_task
    else binary_task
  match dispatched with
  | Except.ok r => r
  | Except.error e =>
      (chart_name,
       { classification := "PROCESSING_ERROR",
         provider := extract_provider chart_name,
         attempts := [],
         minimal_success_params := none,
         error_categories := ["PROCESSING_ERROR"],
         error_details := some e })

/-! ### Checkpoint save (`ChartSolver._save_checkpoint`, solver.py lines
1363-1370)

`_save_checkpoint` executes `open(self.checkpoint_path, "w")` followed by
`json.dump(self.results, f)`: opening with mode `"w"` truncates the
checkpoint file in place, and the dump then appends the new serialized map.
The effect on the file's contents is modelled as that sequence of
operations; a save that fails midway corresponds to applying only a proper
prefix of the sequence. -/

/-- One step of `_save_checkpoint`'s effect on the checkpoint file. -/
inductive FileOp where
  | truncate
  | write (s : String)
deriving DecidableEq

/-- Apply one file operation to the current contents of the checkpoint
file. -/
def apply_file_op (contents : String) : FileOp → String
  | FileOp.truncate => ""
  | FileOp.write s => contents ++ s

/-- Apply a sequence of file operations. -/
def apply_file_ops (contents : String) (ops : List FileOp) : String :=
  ops.foldl apply_file_op contents

/-- The sequence of file operations performed by `ChartSolver._save_checkpoint`
(solver.py lines 1363-1370) for a given serialization of `self.results`:
`open(path, "w")` truncates, `json.dump` writes. -/
def save_checkpoint_ops (serialized : String) : List FileOp :=
  [FileOp.truncate, FileOp.write serialized]

/-! ### Dictionary lemmas -/

theorem lookup_mem {d : ParamSet} {k : String} {v : Value}
    (h : List.lookup k d = some v) : (k, v) ∈ d := by
  induction d with
  | nil => simp [List.lookup] at h
  | cons kv rest ih =>
      obtain ⟨k1, v1⟩ := kv
      by_cases hk : k = k1
      · subst hk
        simp [List.lookup] at h
        simp [h]
      · have hk' : (k == k1) = false := beq_eq_false_iff_ne.mpr hk
        simp only [List.lookup, hk'] at h
        exact List.mem_cons_of_mem _ (ih h)

theorem lookup_isSome_of_mem_keys {d : ParamSet} {k : String}
    (h : k ∈ keys d) : (List.lookup k d).isSome := by
  induction d with
  | nil => simp [keys] at h
  | cons kv rest ih =>
      obtain ⟨k1, v1⟩ := kv
      by_cases hk : k = k1
      · subst hk; simp [List.lookup]
      · have hk' : (k == k1) = false := beq_eq_false_iff_ne.mpr hk
        simp [keys, hk] at h
        simpa only [List.lookup, hk'] using ih (by simp [keys, h])

theorem mem_subDict {d : ParamSet} {ks : List String} {x : String × Value}
    (h : x ∈ subDict d ks) : x ∈ d := by
  rw [subDict, List.mem_filterMap] at h
  obtain ⟨k, -, hk⟩ := h
  cases hl : List.lookup k d with
  | none => rw [hl] at hk; simp at hk
  | some v =>
      rw [hl] at hk
      simp at hk
      rw [← hk]
      exact lookup_mem hl

theorem keys_subDict (d : ParamSet) (ks : List String) :
    keys (subDict d ks) = ks.filter (fun k => (List.lookup k d).isSome) := by
  induction ks with
  | nil => simp [subDict, keys]
  | cons k rest ih =>
      rw [subDict, List.filterMap_cons]
      cases hl : List.lookup k d with
      | none => simpa [keys, hl, subDict] using ih
      | some v =>
          rw [List.filter_cons]
          simpa [keys, hl, subDict] using ih

theorem wf_subDict {d : ParamSet} {ks : List String} (h : ks.Nodup) :
    WF (subDict d ks) := by
  rw [WF, keys_subDict]
  exact h.filter _

theorem wf_first_half_dict {d : ParamSet} (h : WF d) : WF (first_half_dict d) :=
  wf_subDict (h.sublist (List.take_sublist _ _))

theorem wf_second_half_dict {d : ParamSet} (h : WF d) : WF (second_half_dict d) :=
  wf_subDict (h.sublist (List.drop_sublist _ _))

theorem mem_first_half_dict {d : ParamSet} {x : String × Value}
    (h : x ∈ first_half_dict d) : x ∈ d := mem_subDict h

theorem mem_second_half_dict {d : ParamSet} {x : String × Value}
    (h : x ∈ second_half_dict d) : x ∈ d := mem_subDict h

theorem mem_dictInsert {d : ParamSet} {k : String} {v : Value} {x : String × Value}
    (h : x ∈ dictInsert d k v) : x ∈ d ∨ x = (k, v) := by
  induction d with
  | nil => simp [dictInsert] at h; right; exact h
  | cons kv rest ih =>
      rw [dictInsert] at h
      by_cases hk : kv.1 = k
      · simp [hk] at h
        rcases h with h | h
        · right; exact h
        · left; exact List.mem_cons_of_mem _ h
      · simp [hk] at h
        rcases h with h | h
        · left; simp [h]
        · rcases ih h with h' | h'
          · left; exact List.mem_cons_of_mem _ h'
          · right; exact h'

theorem keys_dictInsert (d : ParamSet) (k : String) (v : Value) :
    keys (dictInsert d k v) =
      if k ∈ keys d then keys d else keys d ++ [k] := by
  induction d with
  | nil => simp [dictInsert, keys]
  | cons kv rest ih =>
      rw [dictInsert]
      by_cases hk : kv.1 = k
      · simp [keys, hk]
      · have hk' : ¬k = kv.1 := fun h => hk h.symm
        simp only [if_neg hk, keys, List.map_cons] at ih ⊢
        rw [ih]
        by_cases hm : k ∈ List.map Prod.fst rest
        · simp [hm, hk']
        · simp [hm, hk']

theorem wf_dictInsert {d : ParamSet} (k : String) (v : Value) (h : WF d) :
    WF (dictInsert d k v) := by
  rw [WF, keys_dictInsert]
  by_cases hm : k ∈ keys d
  · simpa [hm] using h
  · simp only [if_neg hm]
    rw [List.nodup_append]
    refine ⟨h, List.nodup_singleton _, ?_⟩
    intro a ha hak
    rw [List.mem_singleton] at hak
    exact hm (hak ▸ ha)

theorem mem_dictMerge {d1 d2 : ParamSet} {x : String × Value}
    (h : x ∈ dictMerge d1 d2) : x ∈ d1 ∨ x ∈ d2 := by
  rw [dictMerge] at h
  induction d2 generalizing d1 with
  | nil => left; simpa using h
  | cons kv rest ih =>
      rw [List.foldl_cons] at h
      rcases ih h with h' | h'
      · rcases mem_dictInsert h' with h'' | h''
        · left; exact h''
        · right; simp [h'']
      · right; exact List.mem_cons_of_mem _ h'

theorem wf_dictMerge {d1 : ParamSet} (d2 : ParamSet) (h : WF d1) :
    WF (dictMerge d1 d2) := by
  rw [dictMerge]
  induction d2 generalizing d1 with
  | nil => simpa using h
  | cons kv rest ih => exact ih (wf_dictInsert _ _ h)

theorem mem_keys_of_mem {d : ParamSet} {x : String × Value} (h : x ∈ d) :
    x.1 ∈ keys d := List.mem_map_of_mem _ h

theorem length_le_of_subset_wf {d e : ParamSet} (hd : WF d)
    (h : ∀ x ∈ d, x ∈ e) : d.length ≤ e.length := by
  have hks : keys d ⊆ keys e := by
    intro k hk
    rw [keys, List.mem_map] at hk
    obtain ⟨x, hx, hxk⟩ := hk
    exact hxk ▸ mem_keys_of_mem (h x hx)
  calc d.length = (keys d).length := (length_keys d).symm
    _ ≤ (keys e).length := (hd.subperm hks).length_le
    _ = e.length := length_keys e

/-! ### Minimizer invariants -/

/-- Invariant of the bisection recursion: whenever both the candidate set and
the caller's last-known-good set satisfy the oracle, so does the returned
set. -/
theorem find_minimal_recursive_sound (run : ParamSet → ProcOutcome)
    (candidate_params current_best_params : ParamSet) :
    (test_chart_with_params_task run candidate_params).status = "SUCCESS" →
    (test_chart_with_params_task run current_best_params).status = "SUCCESS" →
    (test_chart_with_params_task run
      (find_minimal_recursive run candidate_params current_best_params)).status
      = "SUCCESS" := by
  induction candidate_params, current_best_params using
      find_minimal_recursive.induct run with
  | case1 best =>
      intro hc _
      rw [find_minimal_recursive]
      simpa using hc
  | case2 cand best h0 h1 hs =>
      intro hc _
      rw [find_minimal_recursive]
      simp only [dif_neg h0, dif_pos h1, if_pos hs]
      exact hc
  | case3 cand best h0 h1 hs =>
      intro _ hb
      rw [find_minimal_recursive]
      simp only [dif_neg h0, dif_pos h1, if_neg hs]
      exact hb
  | case4 cand best h0 h1 hs2 ih =>
      intro _ hb
      rw [find_minimal_recursive]
      simp only [dif_neg h0, dif_neg h1, if_pos hs2]
      exact ih hs2 hb
  | case5 cand best h0 h1 hs2 hf ih =>
      intro _ hb
      rw [find_minimal_recursive]
      simp only [dif_neg h0, dif_neg h1, if_neg hs2, if_pos hf]
      exact ih hf hb
  | case6 cand best h0 h1 hs2 hf hcomb ih1 ih2 =>
      intro _ _
      rw [find_minimal_recursive]
      simp only [dif_neg h0, dif_neg h1, if_neg hs2, if_neg hf, if_pos hcomb]
      exact hcomb
  | case7 cand best h0 h1 hs2 hf hcomb ih1 ih2 =>
      intro hc _
      rw [find_minimal_recursive]
      simp only [dif_neg h0, dif_neg h1, if_neg hs2, if_neg hf, if_neg hcomb]
      exact hc

/-- Invariant of the bisection recursion: with candidate and fallback sets
that are well-formed sub-dicts of an ambient dict `P`, the returned set is a
well-formed sub-dict of `P`. -/
theorem find_minimal_recursive_subset_wf (run : ParamSet → ProcOutcome)
    (P : ParamSet) (candidate_params current_best_params : ParamSet) :
    (∀ x ∈ candidate_params, x ∈ P) → (∀ x ∈ current_best_params, x ∈ P) →
    WF candidate_params → WF current_best_params →
    (∀ x ∈ find_minimal_recursive run candidate_params current_best_params, x ∈ P) ∧
      WF (find_minimal_recursive run candidate_params current_best_params) := by
  induction candidate_params, current_best_params using
      find_minimal_recursive.induct run with
  | case1 best =>
      intro _ _ _ _
      rw [find_minimal_recursive]
      constructor
      · intro x hx; simp at hx
      · simp [WF, keys]
  | case2 cand best h0 h1 hs =>
      intro hc _ wc _
      rw [find_minimal_recursive]
      simp only [dif_neg h0, dif_pos h1, if_pos hs]
      exact ⟨hc, wc⟩
  | case3 cand best h0 h1 hs =>
      intro _ hb _ wb
      rw [find_minimal_recursive]
      simp only [dif_neg h0, dif_pos h1, if_neg hs]
      exact ⟨hb, wb⟩
  | case4 cand best h0 h1 hs2 ih =>
      intro hc hb wc wb
      rw [find_minimal_recursive]
      simp only [dif_neg h0, dif_neg h1, if_pos hs2]
      exact ih (fun x hx => hc x (mem_second_half_dict hx)) hb
        (wf_second_half_dict wc) wb
  | case5 cand best h0 h1 hs2 hf ih =>
      intro hc hb wc wb
      rw [find_minimal_recursive]
      simp only [dif_neg h0, dif_neg h1, if_neg hs2, if_pos hf]
      exact ih (fun x hx => hc x (mem_first_half_dict hx)) hb
        (wf_first_half_dict wc) wb
  | case6 cand best h0 h1 hs2 hf hcomb ih1 ih2 =>
      intro hc hb wc wb
      rw [find_minimal_recursive]
      simp only [dif_neg h0, dif_neg h1, if_neg hs2, if_neg hf, if_pos hcomb]
      obtain ⟨hf1, wf1⟩ := ih1 (fun x hx => hc x (mem_first_half_dict hx)) hb
        (wf_first_half_dict wc) wb
      obtain ⟨hf2, _⟩ := ih2 (fun x hx => hc x (mem_second_half_dict hx)) hb
        (wf_second_half_dict wc) wb
      constructor
      · intro x hx
        rcases mem_dictMerge hx with h | h
        · exact hf1 x h
        · exact hf2 x h
      · exact wf_dictMerge _ wf1
  | case7 cand best h0 h1 hs2 hf hcomb ih1 ih2 =>
      intro hc _ wc _
      rw [find_minimal_recursive]
      simp only [dif_neg h0, dif_neg h1, if_neg hs2, if_neg hf, if_neg hcomb]
      exact ⟨hc, wc⟩

/-- The singleton loop is `List.find?` over the key list followed by building
the singleton dict of the first hit. -/
theorem first_success_singleton_eq_find (run : ParamSet → ProcOutcome)
    (params : ParamSet) (l : List String) :
    first_success_singleton run params l =
      (l.find? (fun k =>
          (test_chart_with_params_task run (subDict params [k])).status
            == "SUCCESS")).map
        (fun k => subDict params [k]) := by
  induction l with
  | nil => simp [first_success_singleton]
  | cons k rest ih =>
      rw [first_success_singleton, List.find?]
      by_cases hk :
          (test_chart_with_params_task run (subDict params [k])).status = "SUCCESS"
      · simp [hk]
      · have hk' : ((test_chart_with_params_task run (subDict params [k])).status
            == "SUCCESS") = false := beq_eq_false_iff_ne.mpr hk
        simp only [hk', if_neg hk]
        exact ih

/-- A singleton test dict over a key of `params` has exactly one entry. -/
theorem length_subDict_singleton {params : ParamSet} {q : String}
    (h : q ∈ keys params) : (subDict params [q]).length = 1 := by
  obtain ⟨v, hv⟩ := Option.isSome_iff_exists.mp (lookup_isSome_of_mem_keys h)
  simp [subDict, hv]

/-- The instrumented recursion returns the same minimized set as
`find_minimal_recursive`. -/
theorem find_minimal_recursive_calls_fst (run : ParamSet → ProcOutcome)
    (candidate_params current_best_params : ParamSet) :
    (find_minimal_recursive_calls run candidate_params current_best_params).1 =
      find_minimal_recursive run candidate_params current_best_params := by
  induction candidate_params, current_best_params using
      find_minimal_recursive_calls.induct run with
  | case1 best =>
      rw [find_minimal_recursive_calls, find_minimal_recursive]
      simp
  | case2 cand best h0 h1 =>
      rw [find_minimal_recursive_calls, find_minimal_recursive]
      simp only [dif_neg h0, dif_pos h1]
  | case3 cand best h0 h1 hs2 ih =>
      rw [find_minimal_recursive_calls, find_minimal_recursive]
      simp only [dif_neg h0, dif_neg h1, if_pos hs2]
      exact ih
  | case4 cand best h0 h1 hs2 hf ih =>
      rw [find_minimal_recursive_calls, find_minimal_recursive]
      simp only [dif_neg h0, dif_neg h1, if_neg hs2, if_pos hf]
      exact ih
  | case5 cand best h0 h1 hs2 hf ih1 ih2 =>
      rw [find_minimal_recursive_calls, find_minimal_recursive]
      simp only [dif_neg h0, dif_neg h1, if_neg hs2, if_neg hf, ih1, ih2]

/-- `WF` is decidable, so that concrete witnesses can be checked by
`decide`. -/
instance (d : ParamSet) : Decidable (WF d) := by unfold WF; infer_instance

/-! ### Claim theorems -/

/-- C1.  Soundness of minimization: with a deterministic oracle (`run` is a
function of the parameter set), whenever the oracle accepts the working set
`params`, it also accepts the set returned by `_minimize_parameter_set_task`
(and hence by its recursive bisection helper `_find_minimal_recursive`): a
fresh oracle call with exactly the minimized set returns `SUCCESS`, which is
the set stored in `minimal_success_params`. -/
theorem minimize_parameter_set_task_sound (run : ParamSet → ProcOutcome)
    (params : ParamSet)
    (h : (test_chart_with_params_task run params).status = "SUCCESS") :
    (test_chart_with_params_task run
      (minimize_parameter_set_task run params)).status = "SUCCESS" := by
  rw [minimize_parameter_set_task]
  by_cases h0 : params = []
  · simp only [if_pos h0]
    exact h0 ▸ h
  · simp only [if_neg h0]
    by_cases h2 : params.length ≤ 2
    · simp only [if_pos h2]
      exact h
    · simp only [if_neg h2]
      cases hfs : first_success_singleton run params
          (List.insertionSort (· ≤ ·) (keys params)) with
      | some t =>
          rw [first_success_singleton_eq_find] at hfs
          obtain ⟨q, hq, ht⟩ := Option.map_eq_some'.mp hfs
          have hqpred := List.find?_some hq
          rw [beq_iff_eq] at hqpred
          exact ht ▸ hqpred
      | none => exact find_minimal_recursive_sound run params params h h

/-- C1 witness: a concrete always-accepting oracle and a concrete working
set. -/
def run_always_ok : ParamSet → ProcOutcome := fun _ => ProcOutcome.exits 0 ""

/-- C1 witness: the soundness theorem applied to a concrete oracle and
working set. -/
theorem minimize_parameter_set_task_sound_witness :
    (test_chart_with_params_task run_always_ok [("a", "1")]).status = "SUCCESS" ∧
    (test_chart_with_params_task run_always_ok
      (minimize_parameter_set_task run_always_ok [("a", "1")])).status
      = "SUCCESS" :=
  ⟨by decide,
   minimize_parameter_set_task_sound run_always_ok [("a", "1")] (by decide)⟩

/-- C3.  Size bound: for every well-formed working set, whatever the oracle
does, the minimizer returns a sub-dict of the working set, and in particular
a set with at most as many parameters. -/
theorem minimize_parameter_set_task_subset_length (run : ParamSet → ProcOutcome)
    (params : ParamSet) (hwf : WF params) :
    (∀ x ∈ minimize_parameter_set_task run params, x ∈ params) ∧
      (minimize_parameter_set_task run params).length ≤ params.length := by
  rw [minimize_parameter_set_task]
  by_cases h0 : params = []
  · simp [h0]
  · simp only [if_neg h0]
    by_cases h2 : params.length ≤ 2
    · simp only [if_pos h2]
      exact ⟨fun x hx => hx, le_refl _⟩
    · simp only [if_neg h2]
      cases hfs : first_success_singleton run params
          (List.insertionSort (· ≤ ·) (keys params)) with
      | some t =>
          rw [first_success_singleton_eq_find] at hfs
          obtain ⟨q, hq, ht⟩ := Option.map_eq_some'.mp hfs
          have hqmem : q ∈ keys params :=
            (List.perm_insertionSort _ _).mem_iff.mp (List.mem_of_find?_eq_some hq)
          constructor
          · intro x hx
            exact mem_subDict (ht ▸ hx)
          · rw [← ht, length_subDict_singleton hqmem]
            omega
      | none =>
          obtain ⟨hsub, hwfr⟩ := find_minimal_recursive_subset_wf run params
            params params (fun x hx => hx) (fun x hx => hx) hwf hwf
          exact ⟨hsub, length_le_of_subset_wf hwfr hsub⟩

/-- C3 witness: the size bound applied to a concrete oracle and a concrete
three-parameter working set. -/
theorem minimize_parameter_set_task_subset_length_witness :
    WF [("a", "1"), ("b", "2"), ("c", "3")] ∧
    ((∀ x ∈ minimize_parameter_set_task run_always_ok
        [("a", "1"), ("b", "2"), ("c", "3")],
        x ∈ [("a", "1"), ("b", "2"), ("c", "3")]) ∧
      (minimize_parameter_set_task run_always_ok
        [("a", "1"), ("b", "2"), ("c", "3")]).length ≤
        ([("a", "1"), ("b", "2"), ("c", "3")] : ParamSet).length) :=
  ⟨by decide,
   minimize_parameter_set_task_subset_length run_always_ok
     [("a", "1"), ("b", "2"), ("c", "3")] (by decide)⟩

/-- C2 (amended).  Singleton optimality for working sets with at least three
parameters: if some parameter of `params` alone satisfies the oracle, the
minimizer returns the singleton dict of the first qualifying parameter in
sorted key order — never a larger set.  (Sets with one or two parameters are
returned unchanged by the `len(params) <= 2` early exit, so the claim's
extension to `|P| == 2` fails; see the counterexample.) -/
theorem minimize_singleton_optimality (run : ParamSet → ProcOutcome)
    (params : ParamSet) (p : String)
    (h3 : 3 ≤ params.length)
    (hp : p ∈ keys params)
    (hs : (test_chart_with_params_task run (subDict params [p])).status
      = "SUCCESS") :
    ∃ q ∈ keys params,
      (test_chart_with_params_task run (subDict params [q])).status = "SUCCESS" ∧
      (List.insertionSort (· ≤ ·) (keys params)).find?
          (fun k => (test_chart_with_params_task run
            (subDict params [k])).status == "SUCCESS") = some q ∧
      minimize_parameter_set_task run params = subDict params [q] ∧
      (minimize_parameter_set_task run params).length = 1 := by
  have hperm := List.perm_insertionSort (· ≤ · : String → String → Prop) (keys params)
  have hpmem : p ∈ List.insertionSort (· ≤ ·) (keys params) := hperm.mem_iff.mpr hp
  have hsome : ((List.insertionSort (· ≤ ·) (keys params)).find?
      (fun k => (test_chart_with_params_task run
        (subDict params [k])).status == "SUCCESS")).isSome := by
    rw [List.find?_isSome]
    exact ⟨p, hpmem, by simpa using hs⟩
  obtain ⟨q, hq⟩ := Option.isSome_iff_exists.mp hsome
  have hqpred := List.find?_some hq
  rw [beq_iff_eq] at hqpred
  have hqmem : q ∈ keys params := hperm.mem_iff.mp (List.mem_of_find?_eq_some hq)
  have hmin : minimize_parameter_set_task run params = subDict params [q] := by
    rw [minimize_parameter_set_task]
    have h0 : ¬params = [] := by
      intro h
      rw [h] at h3
      simp at h3
    have h2 : ¬params.length ≤ 2 := by omega
    simp only [if_neg h0, if_neg h2]
    rw [first_success_singleton_eq_find, hq]
    rfl
  exact ⟨q, hqmem, hqpred, hq, hmin, hmin ▸ length_subDict_singleton hqmem⟩

/-- C2 data: a concrete oracle accepting exactly the sets that bind `"b"` to
`"2"`. -/
def run_single_b : ParamSet → ProcOutcome := fun ps =>
  if ps.contains ("b", "2") then ProcOutcome.exits 0 ""
  else ProcOutcome.exits 1 "validation failed"

/-- C2 witness: singleton optimality applied to a concrete three-parameter
working set in which the singleton `{"b": "2"}` alone satisfies the
oracle. -/
theorem minimize_singleton_optimality_witness :
    3 ≤ ([("a", "1"), ("b", "2"), ("c", "3")] : ParamSet).length ∧
    "b" ∈ keys [("a", "1"), ("b", "2"), ("c", "3")] ∧
    (test_chart_with_params_task run_single_b
      (subDict [("a", "1"), ("b", "2"), ("c", "3")] ["b"])).status = "SUCCESS" ∧
    (∃ q ∈ keys [("a", "1"), ("b", "2"), ("c", "3")],
      (test_chart_with_params_task run_single_b
        (subDict [("a", "1"), ("b", "2"), ("c", "3")] [q])).status = "SUCCESS" ∧
      (List.insertionSort (· ≤ ·)
          (keys [("a", "1"), ("b", "2"), ("c", "3")])).find?
          (fun k => (test_chart_with_params_task run_single_b
            (subDict [("a", "1"), ("b", "2"), ("c", "3")] [k])).status
              == "SUCCESS") = some q ∧
      minimize_parameter_set_task run_single_b
          [("a", "1"), ("b", "2"), ("c", "3")] =
        subDict [("a", "1"), ("b", "2"), ("c", "3")] [q] ∧
      (minimize_parameter_set_task run_single_b
        [("a", "1"), ("b", "2"), ("c", "3")]).length = 1) :=
  ⟨by decide, by decide, by decide,
   minimize_singleton_optimality run_single_b
     [("a", "1"), ("b", "2"), ("c", "3")] "b" (by decide) (by decide) (by decide)⟩

/-- C2 data: a concrete oracle accepting exactly the sets that bind `"a"` to
`"1"`. -/
def run_single_a : ParamSet → ProcOutcome := fun ps =>
  if ps.contains ("a", "1") then ProcOutcome.exits 0 ""
  else ProcOutcome.exits 1 "validation failed"

/-- C2 counterexample: for the two-parameter working set
`{"a": "1", "b": "2"}` the singleton `{"a": "1"}` alone satisfies the
oracle, yet the minimizer returns the full two-parameter set unchanged — a
set strictly larger than a singleton — because of the `len(params) <= 2`
early exit (solver.py line 447). -/
theorem minimize_singleton_optimality_counterexample :
    (test_chart_with_params_task run_single_a
      (subDict [("a", "1"), ("b", "2")] ["a"])).status = "SUCCESS" ∧
    minimize_parameter_set_task run_single_a [("a", "1"), ("b", "2")] =
      [("a", "1"), ("b", "2")] ∧
    (minimize_parameter_set_task run_single_a
      [("a", "1"), ("b", "2")]).length = 2 := by
  refine ⟨by decide, by decide, by decide⟩

/-- C4.  Combine-and-verify step of the bisection: when neither half of a
splittable candidate set alone satisfies the oracle, the result is the merge
of the two recursively minimized halves if the merge passes one further
verification call, and the original pre-split candidate set otherwise — the
unverified merge is never returned.  The second conjunct pins down the oracle
traffic via the instrumented recursion: after the two half tests and the two
recursive minimizations, exactly one further oracle call is made, on the
merged set. -/
theorem find_minimal_recursive_combine_and_verify (run : ParamSet → ProcOutcome)
    (candidate_params current_best_params : ParamSet)
    (h2 : 2 ≤ candidate_params.length)
    (hs : ¬(test_chart_with_params_task run
      (second_half_dict candidate_params)).status = "SUCCESS")
    (hf : ¬(test_chart_with_params_task run
      (first_half_dict candidate_params)).status = "SUCCESS") :
    find_minimal_recursive run candidate_params current_best_params =
      (if (test_chart_with_params_task run
          (dictMerge
            (find_minimal_recursive run (first_half_dict candidate_params)
              current_best_params)
            (find_minimal_recursive run (second_half_dict candidate_params)
              current_best_params))).status = "SUCCESS" then
        dictMerge
          (find_minimal_recursive run (first_half_dict candidate_params)
            current_best_params)
          (find_minimal_recursive run (second_half_dict candidate_params)
            current_best_params)
      else candidate_params) ∧
    (find_minimal_recursive_calls run candidate_params current_best_params).2 =
      second_half_dict candidate_params :: first_half_dict candidate_params ::
        ((find_minimal_recursive_calls run (first_half_dict candidate_params)
            current_best_params).2 ++
         (find_minimal_recursive_calls run (second_half_dict candidate_params)
            current_best_params).2 ++
         [dictMerge
           (find_minimal_recursive run (first_half_dict candidate_params)
             current_best_params)
           (find_minimal_recursive run (second_half_dict candidate_params)
             current_best_params)]) := by
  have h0 : ¬candidate_params = [] := by
    intro h
    rw [h] at h2
    simp at h2
  have h1 : ¬candidate_params.length = 1 := by omega
  constructor
  · rw [find_minimal_recursive]
    simp only [dif_neg h0, dif_neg h1, if_neg hs, if_neg hf]
  · rw [find_minimal_recursive_calls]
    simp only [dif_neg h0, dif_neg h1, if_neg hs, if_neg hf,
      find_minimal_recursive_calls_fst]

/-- C4 data: a concrete oracle that needs both `"a"` and `"b"`, so that
neither half of the two-parameter candidate set succeeds alone. -/
def run_needs_both : ParamSet → ProcOutcome := fun ps =>
  if ps.contains ("a", "1") && ps.contains ("b", "2") then ProcOutcome.exits 0 ""
  else ProcOutcome.exits 1 "validation failed"

/-- C4 witness: the combine-and-verify theorem applied to a concrete
candidate set whose halves both fail alone. -/
theorem find_minimal_recursive_combine_and_verify_witness :
    2 ≤ ([("a", "1"), ("b", "2")] : ParamSet).length ∧
    ¬(test_chart_with_params_task run_needs_both
      (second_half_dict [("a", "1"), ("b", "2")])).status = "SUCCESS" ∧
    ¬(test_chart_with_params_task run_needs_both
      (first_half_dict [("a", "1"), ("b", "2")])).status = "SUCCESS" ∧
    (find_minimal_recursive run_needs_both [("a", "1"), ("b", "2")]
        [("a", "1"), ("b", "2")] =
      (if (test_chart_with_params_task run_needs_both
          (dictMerge
            (find_minimal_recursive run_needs_both
              (first_half_dict [("a", "1"), ("b", "2")])
              [("a", "1"), ("b", "2")])
            (find_minimal_recursive run_needs_both
              (second_half_dict [("a", "1"), ("b", "2")])
              [("a", "1"), ("b", "2")]))).status = "SUCCESS" then
        dictMerge
          (find_minimal_recursive run_needs_both
            (first_half_dict [("a", "1"), ("b", "2")])
            [("a", "1"), ("b", "2")])
          (find_minimal_recursive run_needs_both
            (second_half_dict [("a", "1"), ("b", "2")])
            [("a", "1"), ("b", "2")])
      else [("a", "1"), ("b", "2")]) ∧
    (find_minimal_recursive_calls run_needs_both [("a", "1"), ("b", "2")]
        [("a", "1"), ("b", "2")]).2 =
      second_half_dict [("a", "1"), ("b", "2")] ::
        first_half_dict [("a", "1"), ("b", "2")] ::
        ((find_minimal_recursive_calls run_needs_both
            (first_half_dict [("a", "1"), ("b", "2")])
            [("a", "1"), ("b", "2")]).2 ++
         (find_minimal_recursive_calls run_needs_both
            (second_half_dict [("a", "1"), ("b", "2")])
            [("a", "1"), ("b", "2")]).2 ++
         [dictMerge
           (find_minimal_recursive run_needs_both
             (first_half_dict [("a", "1"), ("b", "2")])
             [("a", "1"), ("b", "2")])
           (find_minimal_recursive run_needs_both
             (second_half_dict [("a", "1"), ("b", "2")])
             [("a", "1"), ("b", "2")])])) :=
  ⟨by decide, by decide, by decide,
   find_minimal_recursive_combine_and_verify run_needs_both
     [("a", "1"), ("b", "2")] [("a", "1"), ("b", "2")]
     (by decide) (by decide) (by decide)⟩

/-- C5 (amended).  Version-incompatibility precedence: every diagnostic
string whose lowercasing contains one of the classifier's version patterns
(`"version constraint"`, `"kube version"`, `"kubernetes version"`,
`"not compatible with"`, `"incompatible version"`) is classified
`KUBE_VERSION_ERROR` — in particular it never reaches the generic `error`
fallback `UNKNOWN_ERROR`, because the version rule is the first rule in the
ordered list.  (A `kubeVersion ... incompatible` diagnostic that matches
none of these patterns is not covered; see the counterexample.) -/
theorem categorize_error_kube_version_precedence (error_msg : String)
    (h : kube_version_patterns.any
      (fun p => strContains (strToLower error_msg) p) = true) :
    categorize_error error_msg = "KUBE_VERSION_ERROR" := by
  rw [categorize_error]
  by_cases h0 : error_msg = ""
  · rw [h0] at h
    exact absurd h (by decide)
  · simp only [if_neg h0, if_pos h]

/-- C5 witness: the amended precedence theorem applied to a concrete
diagnostic containing both the `"incompatible version"` pattern and the
generic `"error"` substring. -/
theorem categorize_error_kube_version_precedence_witness :
    kube_version_patterns.any
      (fun p => strContains (strToLower "Error: found incompatible version") p)
      = true ∧
    strContains (strToLower "Error: found incompatible version") "error" = true ∧
    categorize_error "Error: found incompatible version" = "KUBE_VERSION_ERROR" :=
  ⟨by decide, by decide,
   categorize_error_kube_version_precedence "Error: found incompatible version"
     (by decide)⟩

/-- C5 counterexample: the diagnostic `"Error: kubeVersion is incompatible"`
contains a `kubeVersion ... incompatible` substring and the generic
`"error"` substring, yet `categorize_error` classifies it `UNKNOWN_ERROR`,
not `KUBE_VERSION_ERROR`: the version patterns all require a space
(`"kube version"`) or a different word order (`"incompatible version"`), so
none of them matches and the string falls through to the generic `error`
fallback. -/
theorem categorize_error_kube_version_counterexample :
    strContains (strToLower "Error: kubeVersion is incompatible") "kubeversion"
      = true ∧
    strContains (strToLower "Error: kubeVersion is incompatible") "incompatible"
      = true ∧
    strContains (strToLower "Error: kubeVersion is incompatible") "error"
      = true ∧
    categorize_error "Error: kubeVersion is incompatible" = "UNKNOWN_ERROR" := by
  refine ⟨by decide, by decide, by decide, by decide⟩

/-- C6.  Required-value precedence over storage: the diagnostic
`required value "global.storageClass" is missing` contains the storage
pattern `"storageclass"`, yet is classified `REQUIRED_VALUE_ERROR`, because
the required-value rule precedes the storage rule in the ordered rule
list. -/
theorem categorize_error_required_value_storage_class :
    strContains
      (strToLower "required value \"global.storageClass\" is missing")
      "storageclass" = true ∧
    categorize_error "required value \"global.storageClass\" is missing" =
      "REQUIRED_VALUE_ERROR" := by
  refine ⟨by decide, by decide⟩

/-- C7.  Timeout handling: when the subprocess for the head candidate set
times out, the oracle client returns (rather than raises) a result whose
status and category are both `TIMEOUT_ERROR`, and the targeted attempt loop
records an `Attempt` with `success = false` and category `TIMEOUT_ERROR`,
adds the timeout category to the seen set, and proceeds to the remaining
candidate sets — the timed-out set is not retried. -/
theorem targeted_params_loop_timeout (run : ParamSet → ProcOutcome)
    (params : ParamSet) (rest : List ParamSet) (attempts : List Attempt)
    (cats : List String) (max_attempts : Nat)
    (hb : attempts.length < max_attempts)
    (ht : run params = ProcOutcome.timesOut) :
    test_chart_with_params_task run params =
      { status := "TIMEOUT_ERROR", category := "TIMEOUT_ERROR",
        details := "Command timed out after 60 seconds" } ∧
    targeted_params_loop run max_attempts (params :: rest) attempts cats =
      targeted_params_loop run max_attempts rest
        (attempts ++ [{ parameters := params, success := false,
                        error_category := some "TIMEOUT_ERROR" }])
        (if "TIMEOUT_ERROR" ∈ cats then cats else cats ++ ["TIMEOUT_ERROR"]) := by
  have htest : test_chart_with_params_task run params =
      { status := "TIMEOUT_ERROR", category := "TIMEOUT_ERROR",
        details := "Command timed out after 60 seconds" } := by
    rw [test_chart_with_params_task, ht]
  refine ⟨htest, ?_⟩
  rw [targeted_params_loop]
  simp only [htest, if_neg (show ¬max_attempts ≤ attempts.length by omega)]
  by_cases hmem : "TIMEOUT_ERROR" ∈ cats
  · simp [hmem]
  · simp [hmem]

/-- C7 data: a concrete subprocess behaviour that always exceeds the
timeout. -/
def run_timeout : ParamSet → ProcOutcome := fun _ => ProcOutcome.timesOut

/-- C7 witness: the timeout theorem applied to a concrete candidate list,
attempt budget and oracle. -/
theorem targeted_params_loop_timeout_witness :
    ([] : List Attempt).length < 10 ∧
    run_timeout [("a", "1")] = ProcOutcome.timesOut ∧
    (test_chart_with_params_task run_timeout [("a", "1")] =
      { status := "TIMEOUT_ERROR", category := "TIMEOUT_ERROR",
        details := "Command timed out after 60 seconds" } ∧
    targeted_params_loop run_timeout 10 [[("a", "1")]] [] [] =
      targeted_params_loop run_timeout 10 []
        [{ parameters := [("a", "1")], success := false,
           error_category := some "TIMEOUT_ERROR" }]
        (if "TIMEOUT_ERROR" ∈ ([] : List String) then []
         else [] ++ ["TIMEOUT_ERROR"])) :=
  ⟨by decide, rfl,
   targeted_params_loop_timeout run_timeout [("a", "1")] [] [] [] 10
     (by decide) rfl⟩

/-- C8 (amended).  Worker-boundary exception containment: for every
exception raised while processing a single chart, `_process_chart_task`
returns — instead of propagating the exception — a finalized record whose
classification and error category are the dedicated `PROCESSING_ERROR`
marker (not the unclassified `UNKNOWN_ERROR` category) and whose
`error_details` carries the exception text, so one misbehaving chart cannot
abort its siblings. -/
theorem process_chart_task_exception_containment
    (chart_name strategy e : String) :
    process_chart_task chart_name strategy (Except.error e) (Except.error e) =
      (chart_name,
       { classification := "PROCESSING_ERROR",
         provider := extract_provider chart_name,
         attempts := [],
         minimal_success_params := none,
         error_categories := ["PROCESSING_ERROR"],
         error_details := some e }) := by
  have hd : (if strategy = "binary" then
        (Except.error e : Except String (String × ChartResults))
      else if strategy = "exhaustive" then Except.error e
      else Except.error e) = Except.error e := by
    split
    · rfl
    · split <;> rfl
  rw [process_chart_task]
  simp only [hd]

/-- C8 counterexample: at a concrete chart and exception, the record built
by the worker-boundary handler carries category `PROCESSING_ERROR`, not the
unclassified category `UNKNOWN_ERROR` claimed by the spec. -/
theorem process_chart_task_category_counterexample :
    (process_chart_task "mychart" "binary"
      (Except.error "boom") (Except.error "boom")).2.error_categories =
      ["PROCESSING_ERROR"] ∧
    (process_chart_task "mychart" "binary"
      (Except.error "boom") (Except.error "boom")).2.error_categories ≠
      ["UNKNOWN_ERROR"] ∧
    (process_chart_task "mychart" "binary"
      (Except.error "boom") (Except.error "boom")).2.error_details =
      some "boom" := by
  refine ⟨by decide, by decide, by decide⟩

/-- C9 (amended).  Checkpoint save: `_save_checkpoint` rewrites the
checkpoint file in place — `open(path, "w")` truncates it and `json.dump`
then writes the new serialized map — so a save that runs to completion
leaves exactly the new map, for any previous contents.  It is not a
write-then-rename: the non-atomicity is exhibited by the counterexample. -/
theorem save_checkpoint_ops_complete (old serialized : String) :
    apply_file_ops old (save_checkpoint_ops serialized) = serialized := by
  simp [apply_file_ops, save_checkpoint_ops, apply_file_op, List.foldl,
    String.empty_append]

/-- C9 counterexample: a save interrupted right after the truncating
`open(path, "w")` — i.e. after the first of the two file operations — leaves
the checkpoint file empty, which is neither the complete previous map
(`"OLD"`) nor the complete new map (`"NEW"`): the save is not an atomic
overwrite. -/
theorem save_checkpoint_not_atomic_counterexample :
    apply_file_ops "OLD" ((save_checkpoint_ops "NEW").take 1) = "" ∧
    ("" : String) ≠ "OLD" ∧ ("" : String) ≠ "NEW" ∧
    apply_file_ops "OLD" (save_checkpoint_ops "NEW") = "NEW" := by
  refine ⟨by decide, by decide, by decide, by decide⟩

/-- C10.  Default strategy dispatch: for any strategy tag other than
`"binary"` and `"exhaustive"`, `_process_chart_task` runs the binary-search
task and therefore produces exactly the same result as it does with strategy
`"binary"`, for the same chart and strategy-task outcomes. -/
theorem process_chart_task_unknown_strategy (chart_name strategy : String)
    (binary_task exhaustive_task : Except String (String × ChartResults))
    (h1 : strategy ≠ "binary") (h2 : strategy ≠ "exhaustive") :
    process_chart_task chart_name strategy binary_task exhaustive_task =
      process_chart_task chart_name "binary" binary_task exhaustive_task := by
  simp [process_chart_task, h1, h2]

/-- C10 witness: the dispatch theorem applied to the concrete unknown tag
`"custom"` and concrete strategy-task outcomes. -/
theorem process_chart_task_unknown_strategy_witness :
    ("custom" : String) ≠ "binary" ∧ ("custom" : String) ≠ "exhaustive" ∧
    process_chart_task "mychart" "custom"
        (Except.error "x") (Except.error "y") =
      process_chart_task "mychart" "binary"
        (Except.error "x") (Except.error "y") :=
  ⟨by decide, by decide,
   process_chart_task_unknown_strategy "mychart" "custom"
     (Except.error "x") (Except.error "y") (by decide) (by decide)⟩

end Solver
